import Mathlib

/-!
Shallow embedding of the Strategic Insights GPT backend core
(`src/SRC/pubmed_service.py`, `src/SRC/clinicaltrials_service.py`,
`src/SRC/vector_service.py`).

Network calls, XML/JSON transport and the embedding/vector-store provider are
modelled as oracle functions returning `Except String`; a Python exception
raised by a provider call corresponds to the `.error` constructor and the
enclosing `try/except` blocks correspond to the `match` on that result.
Raw provider records are modelled as typed structures in which every field
the Python code accesses defensively (via `dict.get` / `Element.find`) is an
`Option`; an XML `find` that may return an element whose `.text` is `None`
is modelled as `Option (Option String)` (outer: element present, inner:
text present).  Floating-point scores/fullness values are never inspected by
any claim, so they are modelled opaquely as `Nat`; embedding vectors are an
abstract type parameter `V`.
-/

/-- The duplicate-removal loop shared (textually) by both services:
`for result in all_results: k = result.get(key); if k and k not in seen: ...`.
A key of `none` (Python `None`) or `""` is falsy and the record is skipped
entirely; a key already in `seen` is skipped; otherwise the record is kept
and its key added to `seen`. -/
def dedupByKey {α : Type} (key : α → Option String) : List α → List String → List α
  | [], _ => []
  | x :: xs, seen =>
    match key x with
    | none => dedupByKey key xs seen
    | some k =>
      if k = "" then dedupByKey key xs seen
      else if k ∈ seen then dedupByKey key xs seen
      else x :: dedupByKey key xs (k :: seen)

namespace PubMed

/-- An `//Author` element: `find('.//LastName')` / `find('.//ForeName')`
results; outer `Option` is element presence, inner is the element's text. -/
structure AuthorElem where
  lastName : Option (Option String) := none
  foreName : Option (Option String) := none

/-- A `//PubDate` element with optional `Year`/`Month`/`Day` children. -/
structure PubDateElem where
  year : Option (Option String) := none
  month : Option (Option String) := none
  day : Option (Option String) := none

/-- A `PubmedArticle` XML element as accessed by `_parse_article`. -/
structure ArticleElem where
  pmid : Option (Option String) := none
  articleTitle : Option (Option String) := none
  abstractText : Option (Option String) := none
  authors : List AuthorElem := []
  journalTitle : Option (Option String) := none
  pubDate : Option PubDateElem := none
  doi : Option (Option String) := none

/-- The dict built by `_parse_article`, extended (in place, during
`bulk_strategic_search`) with the provenance keys `search_query`/`topic`.
A field of type `Option String` holds `none` exactly when the Python dict
holds `None` for that key. -/
structure Article where
  pmid : Option String
  title : Option String
  abstract : Option String
  authors : List String
  journal : Option String
  publication_date : String
  doi : Option String
  source : String
  url : Option String
  search_query : Option String := none
  topic : Option String := none
deriving DecidableEq

/-- Python f-string rendering of a possibly-`None` text (`f"{x}"`). -/
def fmtText : Option String → String
  | none => "None"
  | some s => s

/-- `_extract_publication_date`: joins the texts of the present
`Year`/`Month`/`Day` children with `-`.  If a present child has no text,
Python's `'-'.join` raises `TypeError`, which the function's own
`except` turns into `"Unknown date"`. -/
def _extract_publication_date (e : ArticleElem) : String :=
  match e.pubDate with
  | none => "Unknown date"
  | some pd =>
    let parts : List (Option String) :=
      (match pd.year with | some t => [t] | none => []) ++
      (match pd.month with | some t => [t] | none => []) ++
      (match pd.day with | some t => [t] | none => [])
    if parts = [] then "Unknown date"
    else if parts.any (fun t => t.isNone) then "Unknown date"
    else String.intercalate "-" (parts.map (fun t => t.getD ""))

/-- `_parse_article`.  Under the typed element model no statement of the
body can raise, so the `except`-path (`return None`) is unreachable and the
result is always `some`. -/
def _parse_article (e : ArticleElem) : Option Article :=
  some {
    pmid := e.pmid.join
    title := (match e.articleTitle with
      | none => some "No title available"
      | some t => t)
    abstract := (match e.abstractText with
      | none => some "No abstract available"
      | some t => t)
    authors := e.authors.filterMap (fun a =>
      match a.lastName, a.foreName with
      | some ln, some fn => some (fmtText fn ++ " " ++ fmtText ln)
      | _, _ => none)
    journal := (match e.journalTitle with
      | none => some "Unknown journal"
      | some t => t)
    publication_date := _extract_publication_date e
    doi := e.doi.join
    source := "pubmed"
    url := (match e.pmid.join with
      | some p =>
        if p = "" then none
        else some ("https://pubmed.ncbi.nlm.nih.gov/" ++ p ++ "/")
      | none => none) }

/-- The two NCBI E-utilities endpoints used by `PubMedService`, as oracles:
`esearch` receives the query term and `retmax` and yields the parsed PMID
list; `efetch` receives the PMID list and yields the parsed
`PubmedArticle` elements.  `.error` models a transport/HTTP/parse
exception raised inside the corresponding `requests.get`/`ET.fromstring`. -/
structure PubMedEnv where
  esearch : String → Nat → Except String (List String)
  efetch : List String → Except String (List ArticleElem)

/-- `_fetch_article_details`: one `efetch` call, then each element is parsed
independently (a per-record failure is skipped, which `filterMap` models);
a transport failure yields `[]`. -/
def _fetch_article_details (env : PubMedEnv) (pmids : List String) : List Article :=
  match env.efetch pmids with
  | .error _ => []
  | .ok elems => elems.filterMap _parse_article

/-- `search_articles`, instrumented: the second component records whether
the detail-fetch step (`_fetch_article_details`) was entered at all. -/
def search_articles_run (env : PubMedEnv) (query : String) (max_results : Nat) :
    List Article × Bool :=
  match env.esearch query max_results with
  | .error _ => ([], false)
  | .ok pmids =>
    if pmids.isEmpty then ([], false)
    else (_fetch_article_details env pmids, true)

/-- `search_articles` as the caller sees it. -/
def search_articles (env : PubMedEnv) (query : String) (max_results : Nat) :
    List Article :=
  (search_articles_run env query max_results).1

/-- `self.strategic_queries` of `PubMedService`. -/
def strategic_queries : List String :=
  ["real-world evidence AND registry",
   "cost-effectiveness AND real-world evidence",
   "patient-reported outcomes AND real-world evidence",
   "comparative effectiveness research AND real-world data",
   "real-world evidence AND regulatory approval",
   "observational study AND real-world evidence",
   "real-world evidence AND clinical trials",
   "health economics AND real-world evidence",
   "real-world evidence AND drug safety",
   "real-world evidence AND treatment effectiveness",
   "real-world evidence AND healthcare utilization",
   "real-world evidence AND patient outcomes"]

/-- The `all_results` accumulator of `bulk_strategic_search` after the panel
loop: per sub-query `q`, `search_articles` is called on
`f"{topic} AND ({q})"` with `max_results_per_query`, and each returned dict
gets `search_query`/`topic` attached before being appended. -/
def all_results (env : PubMedEnv) (topic : String) (max_results_per_query : Nat) :
    List Article :=
  strategic_queries.foldl
    (fun acc q =>
      acc ++ (search_articles env (topic ++ " AND (" ++ q ++ ")") max_results_per_query).map
        (fun a => { a with search_query := some q, topic := some topic }))
    []

/-- `bulk_strategic_search`: panel loop, then PMID-based dedup. -/
def bulk_strategic_search (env : PubMedEnv) (topic : String)
    (max_results_per_query : Nat) : List Article :=
  dedupByKey (fun a => a.pmid) (all_results env topic max_results_per_query) []

end PubMed

namespace CT

/-- One entry of `armsInterventionsModule.interventions`. -/
structure RawIntervention where
  type : Option String := none
  name : Option String := none
deriving DecidableEq

/-- A `facility` object of a location entry. -/
structure Facility where
  name : Option String := none
  city : Option String := none
  country : Option String := none

/-- One entry of `contactsLocationsModule.locations`. -/
structure RawLocation where
  facility : Option Facility := none

structure DateStruct where
  date : Option String := none

structure IdentificationModule where
  nctId : Option String := none
  briefTitle : Option String := none

structure StatusModule where
  overallStatus : Option String := none
  startDateStruct : Option DateStruct := none
  completionDateStruct : Option DateStruct := none

structure DescriptionModule where
  briefSummary : Option String := none
  detailedDescription : Option String := none

structure ConditionsModule where
  conditions : Option (List String) := none

structure DesignModule where
  phases : Option (List String) := none

structure ArmsInterventionsModule where
  interventions : Option (List RawIntervention) := none

structure LeadSponsor where
  name : Option String := none

structure SponsorCollaboratorsModule where
  leadSponsor : Option LeadSponsor := none

structure ContactsLocationsModule where
  locations : Option (List RawLocation) := none

/-- The `protocolSection` of a raw study record; every sub-module access in
`_parse_study` goes through `.get(..., {})`. -/
structure ProtocolSection where
  identificationModule : Option IdentificationModule := none
  statusModule : Option StatusModule := none
  descriptionModule : Option DescriptionModule := none
  conditionsModule : Option ConditionsModule := none
  designModule : Option DesignModule := none
  armsInterventionsModule : Option ArmsInterventionsModule := none
  sponsorCollaboratorsModule : Option SponsorCollaboratorsModule := none
  contactsLocationsModule : Option ContactsLocationsModule := none

/-- A raw study record as returned by the v2 studies endpoint. -/
structure RawStudy where
  protocolSection : Option ProtocolSection := none

structure Intervention where
  type : String
  name : String
deriving DecidableEq

structure LocationEntry where
  facility : String
  city : String
  country : String
deriving DecidableEq

/-- The dict built by `_parse_study`, extended with the provenance keys
during `bulk_strategic_search`.  `nct_id` defaults to `""` when absent. -/
structure Study where
  nct_id : String
  title : String
  brief_summary : String
  detailed_description : String
  overall_status : String
  phase : String
  conditions : List String
  interventions : List Intervention
  sponsor : String
  locations : List LocationEntry
  start_date : String
  completion_date : String
  source : String
  url : Option String
  search_query : Option String := none
  topic : Option String := none
deriving DecidableEq

/-- `_parse_study`.  Under the typed record model no statement of the body
can raise, so the `except`-path (`return None`) is unreachable. -/
def _parse_study (study : RawStudy) : Option Study :=
  let protocol_section := study.protocolSection.getD {}
  let identification_module := protocol_section.identificationModule.getD {}
  let status_module := protocol_section.statusModule.getD {}
  let description_module := protocol_section.descriptionModule.getD {}
  let conditions_module := protocol_section.conditionsModule.getD {}
  let design_module := protocol_section.designModule.getD {}
  let arms_interventions_module := protocol_section.armsInterventionsModule.getD {}
  let sponsor_collaborators_module := protocol_section.sponsorCollaboratorsModule.getD {}
  let contacts_locations_module := protocol_section.contactsLocationsModule.getD {}
  let nct_id := identification_module.nctId.getD ""
  some {
    nct_id := nct_id
    title := identification_module.briefTitle.getD "No title available"
    brief_summary := description_module.briefSummary.getD "No summary available"
    detailed_description := description_module.detailedDescription.getD ""
    overall_status := status_module.overallStatus.getD "Unknown"
    phase := (match design_module.phases with
      | some (p :: _) => p
      | some [] => "Unknown"
      | none => "Unknown")
    conditions := conditions_module.conditions.getD []
    interventions := (arms_interventions_module.interventions.getD []).map (fun iv =>
      { type := iv.type.getD "Unknown", name := iv.name.getD "Unknown" })
    sponsor := ((sponsor_collaborators_module.leadSponsor.getD {}).name.getD "Unknown sponsor")
    locations := (contacts_locations_module.locations.getD []).map (fun loc =>
      { facility := (loc.facility.getD {}).name.getD "Unknown facility"
        city := (loc.facility.getD {}).city.getD "Unknown city"
        country := (loc.facility.getD {}).country.getD "Unknown country" })
    start_date := (status_module.startDateStruct.getD {}).date.getD "Unknown"
    completion_date := (status_module.completionDateStruct.getD {}).date.getD "Unknown"
    source := "clinicaltrials"
    url := if nct_id = "" then none
      else some ("https://clinicaltrials.gov/study/" ++ nct_id) }

/-- The query parameters `search_studies` sends to the studies endpoint. -/
structure CTParams where
  queryTerm : String
  pageSize : Nat
  format : String
deriving DecidableEq

/-- The JSON response body; `data.get('studies', [])`. -/
structure CTResponse where
  studies : Option (List RawStudy) := none

/-- The single ClinicalTrials.gov endpoint as an oracle. -/
structure CTEnv where
  getStudies : CTParams → Except String CTResponse

/-- The params dict built by `search_studies`:
`pageSize = min(max_results, 1000)`. -/
def ct_request (query : String) (max_results : Nat) : CTParams :=
  { queryTerm := query, pageSize := min max_results 1000, format := "json" }

/-- `search_studies`: one network call, then `studies[:max_results]` parsed
record-by-record; a transport failure yields `[]`. -/
def search_studies (env : CTEnv) (query : String) (max_results : Nat) : List Study :=
  match env.getStudies (ct_request query max_results) with
  | .error _ => []
  | .ok data => ((data.studies.getD []).take max_results).filterMap _parse_study

/-- `self.strategic_queries` of `ClinicalTrialsService`. -/
def strategic_queries : List String :=
  ["real-world evidence",
   "observational study",
   "registry study",
   "post-marketing surveillance",
   "comparative effectiveness",
   "patient-reported outcomes",
   "health economics",
   "real-world data",
   "pragmatic trial",
   "effectiveness study",
   "safety surveillance",
   "outcomes research"]

/-- The `all_results` accumulator of the registry `bulk_strategic_search`:
per sub-query `q`, `search_studies` is called on `f"{topic} AND {q}"`. -/
def all_results (env : CTEnv) (topic : String) (max_results_per_query : Nat) :
    List Study :=
  strategic_queries.foldl
    (fun acc q =>
      acc ++ (search_studies env (topic ++ " AND " ++ q) max_results_per_query).map
        (fun s => { s with search_query := some q, topic := some topic }))
    []

/-- `bulk_strategic_search`: panel loop, then NCT-id-based dedup
(`result.get('nct_id')` is always present on a parsed study, so the key
function is `some ∘ nct_id`; the `""` default is falsy and dropped). -/
def bulk_strategic_search (env : CTEnv) (topic : String)
    (max_results_per_query : Nat) : List Study :=
  dedupByKey (fun s => some s.nct_id) (all_results env topic max_results_per_query) []

end CT

namespace Vector

/-- A Pinecone metadata value as used by `vector_service.py` (strings and
the integer `chunk_index`/`total_chunks` fields). -/
inductive MetaVal where
  | str : String → MetaVal
  | nat : Nat → MetaVal
deriving DecidableEq

/-- A document dict as consumed by `VectorService` (`doc.get(...)` on every
access; a missing key is `none`). -/
structure VDoc where
  id : Option String := none
  title : Option String := none
  abstract : Option String := none
  brief_summary : Option String := none
  detailed_description : Option String := none
  conditions : Option (List String) := none
  interventions : Option (List CT.RawIntervention) := none
  journal : Option String := none
  authors : Option (List String) := none
  pmid : Option String := none
  nct_id : Option String := none
  source : Option String := none
deriving DecidableEq

/-- A vector-store record handed to `index.upsert`. -/
structure VRecord (V : Type) where
  id : String
  values : V
  metadata : List (String × MetaVal)
deriving DecidableEq

/-- One match of a Pinecone query response. -/
structure MatchRaw where
  id : Option String := none
  score : Option Nat := none
  metadata : Option (List (String × MetaVal)) := none

/-- `results.get('matches', [])`. -/
structure QueryResponse where
  «matches» : Option (List MatchRaw) := none

/-- `index.describe_index_stats()` raw result. -/
structure StatsRaw where
  total_vector_count : Option Nat := none
  dimension : Option Nat := none
  index_fullness : Option Nat := none
  namespaces : Option (List (String × MetaVal)) := none

/-- The shape `get_index_stats` returns on success. -/
structure IndexStats where
  total_vectors : Nat
  dimension : Nat
  index_fullness : Nat
  namespaces : List (String × MetaVal)
deriving DecidableEq

/-- `get_index_stats` returns either the stats dict or `{'error': msg}`. -/
inductive StatsResult where
  | ok : IndexStats → StatsResult
  | err : String → StatsResult
deriving DecidableEq

/-- One formatted result of `similarity_search`. -/
structure SearchResult where
  id : Option String
  score : Option Nat
  metadata : List (String × MetaVal)
  content : MetaVal
deriving DecidableEq

/-- The embedding capability, the text splitter and the Pinecone index as
oracles (`V` is the opaque embedding-vector type).  `.error` models a
raised provider exception. -/
structure VectorEnv (V : Type) where
  split : String → List String
  embed : String → Except String V
  upsert : List (VRecord V) → Except String Unit
  queryIndex : V → Nat → Option (List (String × MetaVal)) → Except String QueryResponse
  describeStats : Except String StatsRaw

/-- The construction-time state of `VectorService`: whether `self.index`
is non-`None`. -/
structure VectorService where
  indexAvailable : Bool
deriving DecidableEq

/-- `VectorService.__init__`: with a falsy API key (absent or `""`) the
index is never created; with a truthy key the index exists iff the
Pinecone connection attempt succeeds.  The service object itself is always
constructed. -/
def vc_init (pinecone_api_key : Option String) (connect_ok : Bool) : VectorService :=
  match pinecone_api_key with
  | none => { indexAvailable := false }
  | some k => if k = "" then { indexAvailable := false }
              else { indexAvailable := connect_ok }

/-- `_extract_content`: concatenates the present (truthy) text fields in the
fixed order, separated by blank lines. -/
def _extract_content (doc : VDoc) : String :=
  let parts : List String :=
    (match doc.title with
      | some t => if t = "" then [] else ["Title: " ++ t]
      | none => []) ++
    (match doc.abstract with
      | some a =>
        if a = "" then
          (match doc.brief_summary with
            | some s => if s = "" then [] else ["Summary: " ++ s]
            | none => [])
        else ["Abstract: " ++ a]
      | none =>
        (match doc.brief_summary with
          | some s => if s = "" then [] else ["Summary: " ++ s]
          | none => [])) ++
    (match doc.detailed_description with
      | some d => if d = "" then [] else ["Description: " ++ d]
      | none => []) ++
    (match doc.conditions with
      | some (c :: cs) => ["Conditions: " ++ String.intercalate ", " (c :: cs)]
      | _ => []) ++
    (match doc.interventions with
      | some (iv :: ivs) =>
        ["Interventions: " ++ String.intercalate ", "
          ((iv :: ivs).map (fun i => i.type.getD "" ++ ": " ++ i.name.getD ""))]
      | _ => []) ++
    (match doc.journal with
      | some j => if j = "" then [] else ["Journal: " ++ j]
      | none => []) ++
    (match doc.authors with
      | some (a :: au) => ["Authors: " ++ String.intercalate ", " ((a :: au).take 5)]
      | _ => [])
  String.intercalate "\n\n" parts

/-- The metadata dict built for one chunk in `add_documents`: the five
mandatory keys in insertion order, then the conditionally-present
provider-specific keys (`if doc.get('pmid'): ...` etc., truthiness-guarded,
with authors joined and truncated to the first 3). -/
def recordMeta (doc : VDoc) (chunk : String) (i total : Nat) :
    List (String × MetaVal) :=
  [("content", MetaVal.str chunk),
   ("source", MetaVal.str (doc.source.getD "unknown")),
   ("title", MetaVal.str (doc.title.getD "")),
   ("chunk_index", MetaVal.nat i),
   ("total_chunks", MetaVal.nat total)] ++
  (match doc.pmid with
    | some p => if p = "" then [] else [("pmid", MetaVal.str p)]
    | none => []) ++
  (match doc.nct_id with
    | some p => if p = "" then [] else [("nct_id", MetaVal.str p)]
    | none => []) ++
  (match doc.journal with
    | some j => if j = "" then [] else [("journal", MetaVal.str j)]
    | none => []) ++
  (match doc.authors with
    | some (a :: au) =>
      [("authors", MetaVal.str (String.intercalate ", " ((a :: au).take 3)))]
    | _ => [])

/-- The inner chunk loop of `add_documents`: for chunk `i`, embed it (a
raised embedding exception aborts the whole call) and build the record
keyed by `f"{doc.get('id', 'unknown')}_{i}"`. -/
def chunkLoop {V : Type} (env : VectorEnv V) (doc : VDoc) (total : Nat) :
    Nat → List String → Except String (List (VRecord V))
  | _, [] => .ok []
  | i, c :: cs =>
    match env.embed c with
    | .error e => .error e
    | .ok emb =>
      match chunkLoop env doc total (i + 1) cs with
      | .error e => .error e
      | .ok recs =>
        .ok ({ id := (doc.id.getD "unknown") ++ "_" ++ toString i
               values := emb
               metadata := recordMeta doc c i total } :: recs)

/-- The records `add_documents` builds for one document: split the extracted
content, then run the chunk loop from index 0. -/
def docChunkRecords {V : Type} (env : VectorEnv V) (doc : VDoc) :
    Except String (List (VRecord V)) :=
  let chunks := env.split (_extract_content doc)
  chunkLoop env doc chunks.length 0 chunks

/-- The full `vectors_to_upsert` accumulator across all documents. -/
def buildAllRecords {V : Type} (env : VectorEnv V) :
    List VDoc → Except String (List (VRecord V))
  | [] => .ok []
  | d :: ds =>
    match docChunkRecords env d with
    | .error e => .error e
    | .ok rs =>
      match buildAllRecords env ds with
      | .error e => .error e
      | .ok rest => .ok (rs ++ rest)

/-- The batched upsert loop: `for i in range(0, len(vectors), 100)`; a
raised store exception aborts the call (batches already sent stay sent). -/
def upsertLoop {V : Type} (env : VectorEnv V) (l : List (VRecord V)) :
    Except String Unit :=
  match l with
  | [] => .ok ()
  | x :: xs =>
    match env.upsert ((x :: xs).take 100) with
    | .error e => .error e
    | .ok _ => upsertLoop env ((x :: xs).drop 100)
termination_by l.length
decreasing_by
  simp only [List.length_drop, List.length_cons]
  omega

/-- `add_documents`: degraded-mode check, record building, batched upsert;
any raised provider exception is caught and surfaces as `false`. -/
def add_documents {V : Type} (svc : VectorService) (env : VectorEnv V)
    (documents : List VDoc) : Bool :=
  if svc.indexAvailable then
    match buildAllRecords env documents with
    | .error _ => false
    | .ok vecs =>
      match upsertLoop env vecs with
      | .error _ => false
      | .ok _ => true
  else false

/-- `if filter_dict:` — an absent or empty filter dict is falsy and the
`filter` parameter is not sent. -/
def normFilter (filter_dict : Option (List (String × MetaVal))) :
    Option (List (String × MetaVal)) :=
  match filter_dict with
  | some l => if l = [] then none else some l
  | none => none

/-- `similarity_search`: degraded-mode check, query embedding, one top-k
store query, then reshaping of each match (absent metadata defaults to the
empty dict, absent content to `""`). -/
def similarity_search {V : Type} (svc : VectorService) (env : VectorEnv V)
    (query : String) (k : Nat)
    (filter_dict : Option (List (String × MetaVal))) : List SearchResult :=
  if svc.indexAvailable then
    match env.embed query with
    | .error _ => []
    | .ok v =>
      match env.queryIndex v k (normFilter filter_dict) with
      | .error _ => []
      | .ok results =>
        (results.«matches».getD []).map (fun m =>
          { id := m.id
            score := m.score
            metadata := m.metadata.getD []
            content := ((m.metadata.getD []).lookup "content").getD (MetaVal.str "") })
  else []

/-- `get_index_stats`: degraded-mode check, then a passthrough of the
store-reported totals; a raised store exception surfaces as the
error-shaped result carrying the exception message. -/
def get_index_stats {V : Type} (svc : VectorService) (env : VectorEnv V) :
    StatsResult :=
  if svc.indexAvailable then
    match env.describeStats with
    | .error e => .err e
    | .ok stats =>
      .ok { total_vectors := stats.total_vector_count.getD 0
            dimension := stats.dimension.getD 0
            index_fullness := stats.index_fullness.getD 0
            namespaces := stats.namespaces.getD [] }
  else .err "Pinecone index not available"

end Vector

/-! ### Concrete fixtures used by witnesses and counterexamples -/

/-- A well-formed article element with PMID 9. -/
def elemW : PubMed.ArticleElem :=
  { pmid := some (some "9"), articleTitle := some (some "T") }

/-- An environment whose id-search always finds PMID 9 and whose
detail-fetch returns the single well-formed element. -/
def envPW : PubMed.PubMedEnv :=
  { esearch := fun _ _ => .ok ["9"], efetch := fun _ => .ok [elemW] }

/-- An environment whose transport always fails. -/
def envPE : PubMed.PubMedEnv :=
  { esearch := fun _ _ => .error "down", efetch := fun _ => .error "down" }

/-- An environment whose id-search finds nothing. -/
def envP0 : PubMed.PubMedEnv :=
  { esearch := fun _ _ => .ok [], efetch := fun _ => .ok [] }

/-- A registry environment returning no studies. -/
def envCW : CT.CTEnv := { getStudies := fun _ => .ok {} }

/-- A registry environment whose transport always fails. -/
def envCE : CT.CTEnv := { getStudies := fun _ => .error "down" }

/-- A trivial vector environment over `V := Nat`: identity split, constant
embedding, always-succeeding store. -/
def envVW : Vector.VectorEnv Nat :=
  { split := fun s => [s]
    embed := fun _ => .ok 0
    upsert := fun _ => .ok ()
    queryIndex := fun _ _ _ => .ok {}
    describeStats := .ok {} }

/-- A literature document as the PubMed adapter actually emits it: the
provider-native identifier lives under `pmid`; there is no `id` key. -/
def docW : Vector.VDoc :=
  { pmid := some "123", title := some "T", source := some "pubmed" }

/-- The single record `add_documents` builds for `docW` under `envVW`. -/
def recW : Vector.VRecord Nat :=
  { id := "unknown_0"
    values := 0
    metadata := Vector.recordMeta docW "Title: T" 0 1 }

/-- Well-formed detail records for PMIDs 111 and 222 (claim C9 scenario). -/
def elem111 : PubMed.ArticleElem :=
  { pmid := some (some "111")
    articleTitle := some (some "Aspirin and RWE")
    abstractText := some (some "An abstract.")
    journalTitle := some (some "J Med")
    authors := [{ lastName := some (some "Doe"), foreName := some (some "Jane") }]
    pubDate := some { year := some (some "2024") }
    doi := some (some "10.1/x") }

def elem222 : PubMed.ArticleElem :=
  { pmid := some (some "222")
    articleTitle := some (some "Aspirin registry study")
    abstractText := some (some "Another abstract.")
    journalTitle := some (some "J Med")
    authors := [{ lastName := some (some "Roe"), foreName := some (some "Rex") }]
    pubDate := some { year := some (some "2023") }
    doi := none }

/-- The claim C9 scenario environment: id-search yields `["111","222"]`,
detail-fetch yields the two well-formed records. -/
def envP9 : PubMed.PubMedEnv :=
  { esearch := fun _ _ => .ok ["111", "222"]
    efetch := fun _ => .ok [elem111, elem222] }

/-- The document `bulk_strategic_search envPW "t" 1` returns: the parse of
`elemW`, annotated with the first panel entry that produced it. -/
def articleW : PubMed.Article :=
  { pmid := some "9"
    title := some "T"
    abstract := some "No abstract available"
    authors := []
    journal := some "Unknown journal"
    publication_date := "Unknown date"
    doi := none
    source := "pubmed"
    url := some "https://pubmed.ncbi.nlm.nih.gov/9/"
    search_query := some "real-world evidence AND registry"
    topic := some "t" }

/-! ### General lemmas about the dedup loop and the panel fold -/

theorem dedupByKey_cons_none {α : Type} (key : α → Option String)
    (x : α) (xs : List α) (seen : List String) (h : key x = none) :
    dedupByKey key (x :: xs) seen = dedupByKey key xs seen := by
  simp [dedupByKey, h]

theorem dedupByKey_cons_dup {α : Type} (key : α → Option String)
    (x : α) (xs : List α) (seen : List String) {k : String}
    (h : key x = some k) (hskip : k = "" ∨ k ∈ seen) :
    dedupByKey key (x :: xs) seen = dedupByKey key xs seen := by
  simp only [dedupByKey, h]
  split_ifs with h1 h2
  · rfl
  · rfl
  · rcases hskip with h' | h'
    · exact absurd h' h1
    · exact absurd h' h2

theorem dedupByKey_cons_new {α : Type} (key : α → Option String)
    (x : α) (xs : List α) (seen : List String) {k : String}
    (h : key x = some k) (h0 : ¬k = "") (h1 : k ∉ seen) :
    dedupByKey key (x :: xs) seen = x :: dedupByKey key xs (k :: seen) := by
  simp only [dedupByKey, h]
  rw [if_neg h0, if_neg h1]

theorem dedupByKey_sublist {α : Type} (key : α → Option String) :
    ∀ (l : List α) (seen : List String), (dedupByKey key l seen).Sublist l := by
  intro l
  induction l with
  | nil => intro seen; simp [dedupByKey]
  | cons x xs ih =>
    intro seen
    simp only [dedupByKey]
    cases hk : key x with
    | none => exact (ih seen).cons x
    | some k =>
      by_cases hk0 : k = ""
      · simp only [hk0, if_pos rfl]
        exact (ih seen).cons x
      · by_cases hmem : k ∈ seen
        · simp only [if_neg hk0, if_pos hmem]
          exact (ih seen).cons x
        · simp only [if_neg hk0, if_neg hmem]
          exact (ih (k :: seen)).cons₂ x

theorem dedupByKey_mem {α : Type} (key : α → Option String) :
    ∀ (l : List α) (seen : List String) (x : α), x ∈ dedupByKey key l seen →
      ∃ k, key x = some k ∧ k ≠ "" ∧ k ∉ seen := by
  intro l
  induction l with
  | nil => intro seen x hx; simp [dedupByKey] at hx
  | cons y ys ih =>
    intro seen x hx
    cases hk : key y with
    | none =>
      rw [dedupByKey_cons_none key y ys seen hk] at hx
      exact ih seen x hx
    | some k =>
      by_cases hk0 : k = ""
      · rw [dedupByKey_cons_dup key y ys seen hk (Or.inl hk0)] at hx
        exact ih seen x hx
      · by_cases hmem : k ∈ seen
        · rw [dedupByKey_cons_dup key y ys seen hk (Or.inr hmem)] at hx
          exact ih seen x hx
        · rw [dedupByKey_cons_new key y ys seen hk hk0 hmem] at hx
          rcases List.mem_cons.mp hx with h | h
          · subst h
            exact ⟨k, hk, hk0, hmem⟩
          · rcases ih (k :: seen) x h with ⟨k', hk', hne, hnot⟩
            exact ⟨k', hk', hne, fun hc => hnot (List.mem_cons_of_mem _ hc)⟩

theorem dedupByKey_filter_nil {α : Type} (key : α → Option String)
    (k : String) (l : List α) (seen : List String) (hmem : k ∈ seen) :
    (dedupByKey key l seen).filter (fun x => decide (key x = some k)) = [] := by
  apply List.filter_eq_nil_iff.mpr
  intro a ha
  rcases dedupByKey_mem key l seen a ha with ⟨k', hk', _, hnot⟩
  simp only [hk', decide_eq_true_eq, Option.some.injEq]
  intro hc
  exact hnot (hc ▸ hmem)

theorem dedupByKey_filter_eq_find {α : Type} (key : α → Option String)
    (k : String) (hk : k ≠ "") :
    ∀ (l : List α) (seen : List String), k ∉ seen →
      (dedupByKey key l seen).filter (fun x => decide (key x = some k))
        = (l.find? (fun x => decide (key x = some k))).toList := by
  intro l
  induction l with
  | nil => intro seen _; simp [dedupByKey]
  | cons x xs ih =>
    intro seen hseen
    cases hkx : key x with
    | none =>
      have hpx : (fun x => decide (key x = some k)) x = false := by
        simp [hkx]
      rw [dedupByKey_cons_none key x xs seen hkx,
        List.find?_cons_of_neg _ (by simp [hpx]), ih seen hseen]
    | some k' =>
      by_cases hk0 : k' = ""
      · subst hk0
        have hpx : (fun x => decide (key x = some k)) x = false := by
          simp only [hkx, decide_eq_false_iff_not, Option.some.injEq]
          exact fun hc => absurd hc.symm hk
        rw [dedupByKey_cons_dup key x xs seen hkx (Or.inl rfl),
          List.find?_cons_of_neg _ (by simp [hpx]), ih seen hseen]
      · by_cases hmem : k' ∈ seen
        · have hne : k' ≠ k := fun hc => hseen (hc ▸ hmem)
          have hpx : (fun x => decide (key x = some k)) x = false := by
            simp only [hkx, decide_eq_false_iff_not, Option.some.injEq]
            exact fun hc => absurd hc hne
          rw [dedupByKey_cons_dup key x xs seen hkx (Or.inr hmem),
            List.find?_cons_of_neg _ (by simp [hpx]), ih seen hseen]
        · rw [dedupByKey_cons_new key x xs seen hkx hk0 hmem]
          by_cases heq : k' = k
          · subst heq
            have hpx : (fun x => decide (key x = some k')) x = true := by
              simp [hkx]
            rw [List.find?_cons_of_pos _ (by simp [hpx])]
            simp only [List.filter_cons, hpx]
            rw [dedupByKey_filter_nil key k' xs (k' :: seen) (List.mem_cons_self _ _)]
            rfl
          · have hpx : (fun x => decide (key x = some k)) x = false := by
              simp only [hkx, decide_eq_false_iff_not, Option.some.injEq]
              exact fun hc => absurd hc heq
            rw [List.find?_cons_of_neg _ (by simp [hpx])]
            simp only [List.filter_cons, hpx]
            have hseen' : k ∉ k' :: seen := by
              intro hc
              rcases List.mem_cons.mp hc with h | h
              · exact heq h.symm
              · exact hseen h
            rw [ih (k' :: seen) hseen']
            simp

theorem foldl_append_eq_flatten {α β : Type} (f : α → List β) :
    ∀ (l : List α) (acc : List β),
      l.foldl (fun a x => a ++ f x) acc = acc ++ (l.map f).flatten := by
  intro l
  induction l with
  | nil => intro acc; simp
  | cons x xs ih =>
    intro acc
    simp only [List.foldl_cons, List.map_cons, List.flatten_cons]
    rw [ih (acc ++ f x), List.append_assoc]

theorem foldl_append_eq_flatten0 {α β : Type} (f : α → List β) (l : List α) :
    l.foldl (fun acc x => acc ++ f x) [] = (l.map f).flatten :=
  (foldl_append_eq_flatten f l []).trans (List.nil_append _)

/-! ### Claims -/

/-- C1: for every sequence of documents accumulated across the bulk
aggregator's fixed query panel (the `all_results` list, over an arbitrary
provider environment, hence over arbitrary document sequences), the output
of `bulk_strategic_search` contains each natural key (`pmid` for the
literature adapter, `nct_id` for the registry adapter) exactly once: for
every non-empty key `k`, the output's documents with key `k` are exactly
the first accumulated document with that key (`find?`), and the output is
a sublist of the accumulated sequence, so it preserves the order of first
appearance. -/
theorem claim_C1_bulk_dedup (envP : PubMed.PubMedEnv) (envC : CT.CTEnv)
    (topic : String) (cap : Nat) (k : String) (hk : k ≠ "") :
    ((PubMed.bulk_strategic_search envP topic cap).Sublist
        (PubMed.all_results envP topic cap)
      ∧ (PubMed.bulk_strategic_search envP topic cap).filter
          (fun (a : PubMed.Article) => decide (a.pmid = some k))
        = ((PubMed.all_results envP topic cap).find?
            (fun (a : PubMed.Article) => decide (a.pmid = some k))).toList)
    ∧ ((CT.bulk_strategic_search envC topic cap).Sublist
        (CT.all_results envC topic cap)
      ∧ (CT.bulk_strategic_search envC topic cap).filter
          (fun (s : CT.Study) => decide (some s.nct_id = some k))
        = ((CT.all_results envC topic cap).find?
            (fun (s : CT.Study) => decide (some s.nct_id = some k))).toList) := by
  unfold PubMed.bulk_strategic_search CT.bulk_strategic_search
  refine ⟨⟨?_, ?_⟩, ?_, ?_⟩
  · exact dedupByKey_sublist _ _ _
  · exact dedupByKey_filter_eq_find (fun (a : PubMed.Article) => a.pmid) k hk _ [] (by simp)
  · exact dedupByKey_sublist _ _ _
  · exact dedupByKey_filter_eq_find (fun (s : CT.Study) => some s.nct_id) k hk _ [] (by simp)

/-- Witness for C1 at the concrete environments `envPW`/`envCW`, topic
`"t"`, cap 1 and key `"9"`. -/
theorem claim_C1_witness :
    ("9" ≠ "")
    ∧ (((PubMed.bulk_strategic_search envPW "t" 1).Sublist
          (PubMed.all_results envPW "t" 1)
        ∧ (PubMed.bulk_strategic_search envPW "t" 1).filter
            (fun (a : PubMed.Article) => decide (a.pmid = some "9"))
          = ((PubMed.all_results envPW "t" 1).find?
              (fun (a : PubMed.Article) => decide (a.pmid = some "9"))).toList)
      ∧ ((CT.bulk_strategic_search envCW "t" 1).Sublist
          (CT.all_results envCW "t" 1)
        ∧ (CT.bulk_strategic_search envCW "t" 1).filter
            (fun (s : CT.Study) => decide (some s.nct_id = some "9"))
          = ((CT.all_results envCW "t" 1).find?
              (fun (s : CT.Study) => decide (some s.nct_id = some "9"))).toList)) :=
  ⟨by decide, claim_C1_bulk_dedup envPW envCW "t" 1 "9" (by decide)⟩

/-- C5: the literature adapter's two network steps happen in order: a
transport failure at the id-search step, or an id-search yielding zero
ids, returns `[]` without entering the detail-fetch step (the `Bool`
component of `search_articles_run` records whether detail-fetch was
issued); a transport failure at the detail-fetch step also yields `[]`;
and when the id-search honours `retmax` (returns at most `max_results`
ids, the provider contract stated by the spec), `search(query, 0)`
returns `[]` without issuing a detail-fetch call. -/
theorem claim_C5_two_step_protocol (env : PubMed.PubMedEnv) (q : String) (n : Nat) :
    (∀ e, env.esearch q n = .error e → PubMed.search_articles_run env q n = ([], false))
    ∧ (env.esearch q n = .ok [] → PubMed.search_articles_run env q n = ([], false))
    ∧ (∀ pmids e, env.esearch q n = .ok pmids → env.efetch pmids = .error e →
        PubMed.search_articles env q n = [])
    ∧ ((∀ ids, env.esearch q 0 = .ok ids → ids.length ≤ 0) →
        PubMed.search_articles_run env q 0 = ([], false)) := by
  refine ⟨?_, ?_, ?_, ?_⟩
  · intro e h
    unfold PubMed.search_articles_run
    rw [h]
  · intro h
    unfold PubMed.search_articles_run
    rw [h]
    rfl
  · intro pmids e h1 h2
    unfold PubMed.search_articles PubMed.search_articles_run
    rw [h1]
    by_cases hp : pmids.isEmpty
    · simp [hp]
    · simp only [hp, if_false, Bool.false_eq_true]
      unfold PubMed._fetch_article_details
      rw [h2]
  · intro hp
    cases hs : env.esearch q 0 with
    | error e =>
      unfold PubMed.search_articles_run
      rw [hs]
    | ok ids =>
      have hnil : ids = [] := List.eq_nil_of_length_eq_zero (Nat.le_zero.mp (hp ids hs))
      unfold PubMed.search_articles_run
      rw [hs, hnil]
      rfl

/-- Witness for C5: an id-search that finds nothing returns `[]` without a
detail-fetch call. -/
theorem claim_C5_witness :
    envP0.esearch "aspirin" 5 = .ok []
    ∧ PubMed.search_articles_run envP0 "aspirin" 5 = ([], false) :=
  ⟨rfl, (claim_C5_two_step_protocol envP0 "aspirin" 5).2.1 rfl⟩

/-- C6: the registry adapter sends the provider a page size equal to
`max_results` capped at 1000, and the parsed result, truncated client-side
by `studies[:max_results]`, never has more than `max_results` elements. -/
theorem claim_C6_page_cap (env : CT.CTEnv) (q : String) (n : Nat) :
    (CT.ct_request q n).pageSize = min n 1000
    ∧ (CT.search_studies env q n).length ≤ n := by
  refine ⟨rfl, ?_⟩
  unfold CT.search_studies
  cases h : env.getStudies (CT.ct_request q n) with
  | error e => simp
  | ok data =>
    calc (((data.studies.getD []).take n).filterMap CT._parse_study).length
        ≤ ((data.studies.getD []).take n).length := List.length_filterMap_le _ _
      _ ≤ n := by simp [List.length_take]

/-- C8: the panel loop of each bulk aggregator accumulates, in panel
order, exactly the results of calling the adapter's search on the combined
query string (`topic AND (subquery)` for literature, `topic AND subquery`
for the registry) with `per_query_cap`, each returned document annotated
with `search_query = subquery` and `topic = topic`; a failed sub-query
contributes `[]` (the adapter returns empty on error) and does not abort
the panel, which the flatten-of-map shape exhibits.  The bulk output is
the dedup of that accumulator. -/
theorem claim_C8_panel_composition (envP : PubMed.PubMedEnv) (envC : CT.CTEnv)
    (topic : String) (cap : Nat) :
    PubMed.all_results envP topic cap
      = (PubMed.strategic_queries.map (fun q =>
          (PubMed.search_articles envP (topic ++ " AND (" ++ q ++ ")") cap).map
            (fun a => { a with search_query := some q, topic := some topic }))).flatten
    ∧ CT.all_results envC topic cap
      = (CT.strategic_queries.map (fun q =>
          (CT.search_studies envC (topic ++ " AND " ++ q) cap).map
            (fun s => { s with search_query := some q, topic := some topic }))).flatten
    ∧ PubMed.bulk_strategic_search envP topic cap
        = dedupByKey (fun a => a.pmid) (PubMed.all_results envP topic cap) []
    ∧ CT.bulk_strategic_search envC topic cap
        = dedupByKey (fun s => some s.nct_id) (CT.all_results envC topic cap) [] := by
  refine ⟨?_, ?_, rfl, rfl⟩
  · unfold PubMed.all_results
    exact foldl_append_eq_flatten0 _ _
  · unfold CT.all_results
    exact foldl_append_eq_flatten0 _ _

/-- C10: every document surviving either bulk aggregator's deduplication
has a non-empty natural key; documents whose key is `None` (absent PMID)
or `""` (the trial parser's default for a missing `nctId`) are removed
from the output entirely. -/
theorem claim_C10_nonempty_keys (envP : PubMed.PubMedEnv) (envC : CT.CTEnv)
    (topic : String) (cap : Nat) :
    (∀ a ∈ PubMed.bulk_strategic_search envP topic cap, ∃ p, a.pmid = some p ∧ p ≠ "")
    ∧ (∀ s ∈ CT.bulk_strategic_search envC topic cap, s.nct_id ≠ "") := by
  unfold PubMed.bulk_strategic_search CT.bulk_strategic_search
  constructor
  · intro a ha
    rcases dedupByKey_mem _ _ _ _ ha with ⟨k, hk, hne, _⟩
    exact ⟨k, hk, hne⟩
  · intro s hs
    rcases dedupByKey_mem _ _ _ _ hs with ⟨k, hk, hne, _⟩
    exact (Option.some.inj hk) ▸ hne

set_option maxHeartbeats 1600000 in
/-- Witness for C10: the concrete bulk run over `envPW` contains
`articleW`, whose PMID is the non-empty `"9"`. -/
theorem claim_C10_witness :
    (articleW ∈ PubMed.bulk_strategic_search envPW "t" 1)
    ∧ (∃ p, articleW.pmid = some p ∧ p ≠ "") := by
  have hb : PubMed.bulk_strategic_search envPW "t" 1 = [articleW] := by rfl
  have hm : articleW ∈ PubMed.bulk_strategic_search envPW "t" 1 := by
    rw [hb]
    exact List.mem_singleton.mpr rfl
  exact ⟨hm, (claim_C10_nonempty_keys envPW envCW "t" 1).1 articleW hm⟩

/-- C3: both per-record normalizers are total on raw records with
arbitrarily deep missing nested fields: they always return a fully
populated document (never a partially-initialized one, never an
exception), in which each documented field carries either the provider's
real value or its documented default. -/
theorem claim_C3_normalizer_robust (e : PubMed.ArticleElem) (s : CT.RawStudy) :
    (∃ a, PubMed._parse_article e = some a
      ∧ a.source = "pubmed"
      ∧ ((e.articleTitle = none ∧ a.title = some "No title available")
        ∨ (∃ t, e.articleTitle = some t ∧ a.title = t))
      ∧ ((e.abstractText = none ∧ a.abstract = some "No abstract available")
        ∨ (∃ t, e.abstractText = some t ∧ a.abstract = t))
      ∧ ((e.journalTitle = none ∧ a.journal = some "Unknown journal")
        ∨ (∃ t, e.journalTitle = some t ∧ a.journal = t))
      ∧ a.pmid = e.pmid.join
      ∧ a.doi = e.doi.join
      ∧ a.publication_date = PubMed._extract_publication_date e)
    ∧ (∃ d, CT._parse_study s = some d
      ∧ d.source = "clinicaltrials"
      ∧ ((((s.protocolSection.getD {}).identificationModule.getD {}).nctId = none
            ∧ d.nct_id = "")
        ∨ (∃ t, ((s.protocolSection.getD {}).identificationModule.getD {}).nctId = some t
            ∧ d.nct_id = t))
      ∧ ((((s.protocolSection.getD {}).identificationModule.getD {}).briefTitle = none
            ∧ d.title = "No title available")
        ∨ (∃ t, ((s.protocolSection.getD {}).identificationModule.getD {}).briefTitle = some t
            ∧ d.title = t))
      ∧ ((((s.protocolSection.getD {}).statusModule.getD {}).overallStatus = none
            ∧ d.overall_status = "Unknown")
        ∨ (∃ t, ((s.protocolSection.getD {}).statusModule.getD {}).overallStatus = some t
            ∧ d.overall_status = t))
      ∧ ((((s.protocolSection.getD {}).descriptionModule.getD {}).briefSummary = none
            ∧ d.brief_summary = "No summary available")
        ∨ (∃ t, ((s.protocolSection.getD {}).descriptionModule.getD {}).briefSummary = some t
            ∧ d.brief_summary = t))
      ∧ (((((s.protocolSection.getD {}).designModule.getD {}).phases = none
            ∨ ((s.protocolSection.getD {}).designModule.getD {}).phases = some [])
          ∧ d.phase = "Unknown")
        ∨ (∃ p ps, ((s.protocolSection.getD {}).designModule.getD {}).phases = some (p :: ps)
            ∧ d.phase = p))
      ∧ d.conditions = ((s.protocolSection.getD {}).conditionsModule.getD {}).conditions.getD []
      ∧ d.sponsor = (((s.protocolSection.getD {}).sponsorCollaboratorsModule.getD
            {}).leadSponsor.getD {}).name.getD "Unknown sponsor"
      ∧ d.start_date = (((s.protocolSection.getD {}).statusModule.getD
            {}).startDateStruct.getD {}).date.getD "Unknown") := by
  constructor
  · refine ⟨_, rfl, rfl, ?_, ?_, ?_, rfl, rfl, rfl⟩
    · cases h : e.articleTitle with
      | none => exact Or.inl ⟨rfl, by simp [PubMed._parse_article, h]⟩
      | some t => exact Or.inr ⟨t, rfl, by simp [PubMed._parse_article, h]⟩
    · cases h : e.abstractText with
      | none => exact Or.inl ⟨rfl, by simp [PubMed._parse_article, h]⟩
      | some t => exact Or.inr ⟨t, rfl, by simp [PubMed._parse_article, h]⟩
    · cases h : e.journalTitle with
      | none => exact Or.inl ⟨rfl, by simp [PubMed._parse_article, h]⟩
      | some t => exact Or.inr ⟨t, rfl, by simp [PubMed._parse_article, h]⟩
  · refine ⟨_, rfl, rfl, ?_, ?_, ?_, ?_, ?_, rfl, rfl, rfl⟩
    · cases h : ((s.protocolSection.getD {}).identificationModule.getD {}).nctId with
      | none => exact Or.inl ⟨rfl, by simp [CT._parse_study, h]⟩
      | some t => exact Or.inr ⟨t, rfl, by simp [CT._parse_study, h]⟩
    · cases h : ((s.protocolSection.getD {}).identificationModule.getD {}).briefTitle with
      | none => exact Or.inl ⟨rfl, by simp [CT._parse_study, h]⟩
      | some t => exact Or.inr ⟨t, rfl, by simp [CT._parse_study, h]⟩
    · cases h : ((s.protocolSection.getD {}).statusModule.getD {}).overallStatus with
      | none => exact Or.inl ⟨rfl, by simp [CT._parse_study, h]⟩
      | some t => exact Or.inr ⟨t, rfl, by simp [CT._parse_study, h]⟩
    · cases h : ((s.protocolSection.getD {}).descriptionModule.getD {}).briefSummary with
      | none => exact Or.inl ⟨rfl, by simp [CT._parse_study, h]⟩
      | some t => exact Or.inr ⟨t, rfl, by simp [CT._parse_study, h]⟩
    · cases h : ((s.protocolSection.getD {}).designModule.getD {}).phases with
      | none => exact Or.inl ⟨Or.inl rfl, by simp [CT._parse_study, h]⟩
      | some l =>
        cases l with
        | nil => exact Or.inl ⟨Or.inr rfl, by simp [CT._parse_study, h]⟩
        | cons p ps => exact Or.inr ⟨p, ps, rfl, by simp [CT._parse_study, h]⟩

/-- C9 counterexample: in the scenario of the claim (id-search yields
`["111","222"]`, detail-fetch yields two well-formed records), `search`
does return 2 documents, but their `source` field is the adapter's literal
tag `"pubmed"`, not the string `"literature"` that the claim asserts. -/
theorem claim_C9_cex :
    (PubMed.search_articles envP9 "aspirin AND real-world evidence" 10).length = 2
    ∧ ¬ (∀ a ∈ PubMed.search_articles envP9 "aspirin AND real-world evidence" 10,
          a.source = "literature") := by
  constructor
  · rfl
  · decide

/-- C9 (amended): in the scenario, `search` returns exactly 2 documents
with `source = "pubmed"` (the literature adapter's tag) and urls derived
deterministically from the ids, ending in `/111/` and `/222/`; in general
the url is `none` exactly when the parsed PMID is absent or empty, and
otherwise is the PMID-derived url. -/
theorem claim_C9_scenario :
    (PubMed.search_articles envP9 "aspirin AND real-world evidence" 10).map
        (fun (a : PubMed.Article) => a.source) = ["pubmed", "pubmed"]
    ∧ (PubMed.search_articles envP9 "aspirin AND real-world evidence" 10).map
        (fun (a : PubMed.Article) => a.url)
      = [some "https://pubmed.ncbi.nlm.nih.gov/111/",
         some "https://pubmed.ncbi.nlm.nih.gov/222/"]
    ∧ ∀ e : PubMed.ArticleElem, ∃ a, PubMed._parse_article e = some a
        ∧ ((a.pmid = none ∧ a.url = none)
          ∨ (∃ p, a.pmid = some p
              ∧ ((p = "" ∧ a.url = none)
                ∨ (p ≠ ""
                  ∧ a.url = some ("https://pubmed.ncbi.nlm.nih.gov/" ++ p ++ "/"))))) := by
  refine ⟨rfl, rfl, ?_⟩
  intro e
  refine ⟨_, rfl, ?_⟩
  cases h : e.pmid.join with
  | none => exact Or.inl ⟨by simp [PubMed._parse_article, h], by simp [PubMed._parse_article, h]⟩
  | some p =>
    by_cases hp : p = ""
    · exact Or.inr ⟨p, by simp [PubMed._parse_article, h],
        Or.inl ⟨hp, by simp [PubMed._parse_article, h, hp]⟩⟩
    · exact Or.inr ⟨p, by simp [PubMed._parse_article, h],
        Or.inr ⟨hp, by simp [PubMed._parse_article, h, hp]⟩⟩

/-- What a successful chunk loop run produces: one record per chunk, the
`j`-th keyed by the `id`-field-or-`"unknown"` prefix with index `i0 + j`,
carrying that chunk's embedding and metadata. -/
theorem chunkLoop_ok {V : Type} (env : Vector.VectorEnv V) (doc : Vector.VDoc)
    (total : Nat) :
    ∀ (cs : List String) (i0 : Nat) (recs : List (Vector.VRecord V)),
      Vector.chunkLoop env doc total i0 cs = .ok recs →
      recs.length = cs.length
      ∧ ∀ j c, cs[j]? = some c →
          ∃ v, env.embed c = .ok v
            ∧ recs[j]? = some
                ({ id := (doc.id.getD "unknown") ++ "_" ++ toString (i0 + j)
                   values := v
                   metadata := Vector.recordMeta doc c (i0 + j) total } :
                  Vector.VRecord V) := by
  intro cs
  induction cs with
  | nil =>
    intro i0 recs h
    simp only [Vector.chunkLoop, Except.ok.injEq] at h
    subst h
    refine ⟨rfl, ?_⟩
    intro j c hc
    simp at hc
  | cons c cs ih =>
    intro i0 recs h
    cases hemb : env.embed c with
    | error e => simp [Vector.chunkLoop, hemb] at h
    | ok v =>
      cases hrest : Vector.chunkLoop env doc total (i0 + 1) cs with
      | error e => simp [Vector.chunkLoop, hemb, hrest] at h
      | ok rest =>
        simp only [Vector.chunkLoop, hemb, hrest, Except.ok.injEq] at h
        obtain ⟨hlen, hget⟩ := ih (i0 + 1) rest hrest
        subst h
        constructor
        · simp [hlen]
        · intro j cj hcj
          cases j with
          | zero =>
            simp only [List.getElem?_cons_zero, Option.some.injEq] at hcj
            subst hcj
            exact ⟨v, hemb, by simp⟩
          | succ j =>
            simp only [List.getElem?_cons_succ] at hcj
            rcases hget j cj hcj with ⟨v', hv', hr⟩
            refine ⟨v', hv', ?_⟩
            have hidx : i0 + 1 + j = i0 + (j + 1) := by omega
            simp only [List.getElem?_cons_succ]
            rw [← hidx]
            exact hr

/-- C2 counterexample: a literature document carries its provider-native
identifier under the `pmid` key, not under `id`; `add_documents` keys the
record with `doc.get('id', 'unknown')`, so the constructed vector id is
`"unknown_0"` and not the claimed PMID-based `"123_0"`. -/
theorem claim_C2_cex :
    Vector.docChunkRecords envVW docW = .ok [recW]
    ∧ docW.pmid = some "123"
    ∧ docW.id = none
    ∧ recW.id = "unknown_0"
    ∧ "unknown_0" ≠ "123_0" :=
  ⟨rfl, rfl, rfl, rfl, by decide⟩

/-- C2 (amended): for every document and chunk index `i`, the record built
by `add_documents` is keyed by the string `id_i` where `id` is the
document's literal `id` field defaulting to `"unknown"` when absent (the
provider-native `pmid`/`nct_id` fields are not consulted for the key), and
its metadata carries the chunk text, source, title, chunk_index,
total_chunks, and any present (truthy) provider-specific fields: pmid,
nct_id, journal, and the first 3 authors joined with a comma. -/
theorem claim_C2_chunk_records {V : Type} (env : Vector.VectorEnv V)
    (doc : Vector.VDoc) (recs : List (Vector.VRecord V))
    (h : Vector.docChunkRecords env doc = .ok recs) :
    recs.length = (env.split (Vector._extract_content doc)).length
    ∧ (∀ j c, (env.split (Vector._extract_content doc))[j]? = some c →
        ∃ v, env.embed c = .ok v
          ∧ recs[j]? = some
              ({ id := (doc.id.getD "unknown") ++ "_" ++ toString j
                 values := v
                 metadata := Vector.recordMeta doc c j
                   (env.split (Vector._extract_content doc)).length } :
                Vector.VRecord V))
    ∧ (∀ c i total,
        ((Vector.recordMeta doc c i total).lookup "content"
            = some (Vector.MetaVal.str c)
          ∧ (Vector.recordMeta doc c i total).lookup "source"
              = some (Vector.MetaVal.str (doc.source.getD "unknown"))
          ∧ (Vector.recordMeta doc c i total).lookup "title"
              = some (Vector.MetaVal.str (doc.title.getD ""))
          ∧ (Vector.recordMeta doc c i total).lookup "chunk_index"
              = some (Vector.MetaVal.nat i)
          ∧ (Vector.recordMeta doc c i total).lookup "total_chunks"
              = some (Vector.MetaVal.nat total))
        ∧ (∀ p, doc.pmid = some p → p ≠ "" →
            ("pmid", Vector.MetaVal.str p) ∈ Vector.recordMeta doc c i total)
        ∧ (∀ p, doc.nct_id = some p → p ≠ "" →
            ("nct_id", Vector.MetaVal.str p) ∈ Vector.recordMeta doc c i total)
        ∧ (∀ jn, doc.journal = some jn → jn ≠ "" →
            ("journal", Vector.MetaVal.str jn) ∈ Vector.recordMeta doc c i total)
        ∧ (∀ a au, doc.authors = some (a :: au) →
            ("authors", Vector.MetaVal.str (String.intercalate ", " ((a :: au).take 3)))
              ∈ Vector.recordMeta doc c i total)) := by
  obtain ⟨hlen, hget⟩ := chunkLoop_ok env doc
    (env.split (Vector._extract_content doc)).length
    (env.split (Vector._extract_content doc)) 0 recs h
  refine ⟨hlen, ?_, ?_⟩
  · intro j c hc
    rcases hget j c hc with ⟨v, hv, hr⟩
    refine ⟨v, hv, ?_⟩
    simpa using hr
  · intro c i total
    refine ⟨⟨?_, ?_, ?_, ?_, ?_⟩, ?_, ?_, ?_, ?_⟩
    · simp [Vector.recordMeta, List.lookup]
    · simp [Vector.recordMeta, List.lookup]
    · simp [Vector.recordMeta, List.lookup]
    · simp [Vector.recordMeta, List.lookup]
    · simp [Vector.recordMeta, List.lookup]
    · intro p hp hne
      simp [Vector.recordMeta, hp, hne]
    · intro p hp hne
      simp [Vector.recordMeta, hp, hne]
    · intro jn hj hne
      simp [Vector.recordMeta, hj, hne]
    · intro a au ha
      simp [Vector.recordMeta, ha]

/-- Witness for C2 (amended) at the concrete `envVW`/`docW`. -/
theorem claim_C2_witness :
    (Vector.docChunkRecords envVW docW = .ok [recW])
    ∧ [recW].length = (envVW.split (Vector._extract_content docW)).length :=
  ⟨rfl, (claim_C2_chunk_records envVW docW [recW] rfl).1⟩

/-- C4: every public core operation is exception-free at its boundary:
for arbitrary provider environments, each failure mode surfaces as the
operation's sentinel value — `[]` for the searches and the similarity
search, `false` for `add_documents`, an error-shaped object for
`get_index_stats` — and never as a raised error. -/
theorem claim_C4_exception_free {V : Type} (envP : PubMed.PubMedEnv) (envC : CT.CTEnv)
    (envV : Vector.VectorEnv V) (svc : Vector.VectorService) (q : String) (n k : Nat)
    (fd : Option (List (String × Vector.MetaVal))) (docs : List Vector.VDoc) :
    (∀ e, envP.esearch q n = .error e → PubMed.search_articles envP q n = [])
    ∧ (∀ pmids e, envP.esearch q n = .ok pmids → envP.efetch pmids = .error e →
        PubMed.search_articles envP q n = [])
    ∧ (∀ e, envC.getStudies (CT.ct_request q n) = .error e →
        CT.search_studies envC q n = [])
    ∧ (∀ e, envV.embed q = .error e → Vector.similarity_search svc envV q k fd = [])
    ∧ (∀ v e, envV.embed q = .ok v →
        envV.queryIndex v k (Vector.normFilter fd) = .error e →
        Vector.similarity_search svc envV q k fd = [])
    ∧ (∀ e, Vector.buildAllRecords envV docs = .error e →
        Vector.add_documents svc envV docs = false)
    ∧ (∀ recs e, Vector.buildAllRecords envV docs = .ok recs →
        Vector.upsertLoop envV recs = .error e →
        Vector.add_documents svc envV docs = false)
    ∧ (∀ e, envV.describeStats = .error e →
        ∃ msg, Vector.get_index_stats svc envV = .err msg) := by
  refine ⟨?_, ?_, ?_, ?_, ?_, ?_, ?_, ?_⟩
  · intro e h
    unfold PubMed.search_articles PubMed.search_articles_run
    rw [h]
  · intro pmids e h1 h2
    unfold PubMed.search_articles PubMed.search_articles_run
    rw [h1]
    by_cases hp : pmids.isEmpty
    · simp [hp]
    · simp only [hp, Bool.false_eq_true, if_false]
      unfold PubMed._fetch_article_details
      rw [h2]
  · intro e h
    unfold CT.search_studies
    rw [h]
  · intro e h
    unfold Vector.similarity_search
    cases hav : svc.indexAvailable <;> simp [hav, h]
  · intro v e h1 h2
    unfold Vector.similarity_search
    cases hav : svc.indexAvailable <;> simp [hav, h1, h2]
  · intro e h
    unfold Vector.add_documents
    cases hav : svc.indexAvailable <;> simp [hav, h]
  · intro recs e h1 h2
    unfold Vector.add_documents
    cases hav : svc.indexAvailable <;> simp [hav, h1, h2]
  · intro e h
    cases hav : svc.indexAvailable with
    | false =>
      exact ⟨"Pinecone index not available", by simp [Vector.get_index_stats, hav]⟩
    | true => exact ⟨e, by simp [Vector.get_index_stats, hav, h]⟩

/-- Witness for C4: a transport failure at the id-search step surfaces as
the empty sequence. -/
theorem claim_C4_witness :
    (envPE.esearch "q" 3 = .error "down")
    ∧ PubMed.search_articles envPE "q" 3 = [] :=
  ⟨rfl, (claim_C4_exception_free envPE envCW envVW ⟨true⟩ "q" 3 0 none []).1 "down" rfl⟩

/-- C7: when the backing store is unavailable at construction time —
missing credentials (`none`), an empty key, or a failed connection — the
vector service is still constructed, and every subsequent operation
short-circuits to its documented degraded value: `[]` for
`similarity_search`, `false` for `add_documents`, and the error object for
`get_index_stats`; nothing is raised at any call site. -/
theorem claim_C7_degraded_mode {V : Type} (c : Bool) (key : String)
    (env : Vector.VectorEnv V) (q : String) (k : Nat)
    (fd : Option (List (String × Vector.MetaVal))) (docs : List Vector.VDoc) :
    (Vector.vc_init none c).indexAvailable = false
    ∧ (Vector.vc_init (some key) false).indexAvailable = false
    ∧ Vector.similarity_search (Vector.vc_init none c) env q k fd = []
    ∧ Vector.add_documents (Vector.vc_init none c) env docs = false
    ∧ Vector.get_index_stats (Vector.vc_init none c) env
        = .err "Pinecone index not available"
    ∧ Vector.similarity_search (Vector.vc_init (some key) false) env q k fd = []
    ∧ Vector.add_documents (Vector.vc_init (some key) false) env docs = false
    ∧ Vector.get_index_stats (Vector.vc_init (some key) false) env
        = .err "Pinecone index not available" := by
  have h1 : (Vector.vc_init none c).indexAvailable = false := rfl
  have h2 : (Vector.vc_init (some key) false).indexAvailable = false := by
    by_cases hk : key = "" <;> simp [Vector.vc_init, hk]
  refine ⟨h1, h2, ?_, ?_, ?_, ?_, ?_, ?_⟩
  · simp [Vector.similarity_search, h1]
  · simp [Vector.add_documents, h1]
  · simp [Vector.get_index_stats, h1]
  · simp [Vector.similarity_search, h2]
  · simp [Vector.add_documents, h2]
  · simp [Vector.get_index_stats, h2]
